import Mathlib

/-!
Shallow embedding of `src/core/mindsdb_handler.py` (class `MindsDBHandler`)
from the Kleos repository.

Modelling conventions:
* Python strings are Lean `String`; `str.replace`, `str.lower`, `str.upper`,
  `str.startswith`, substring membership (`in`) and `rstrip` are re-implemented
  character-wise below so that everything kernel-reduces.
* The remote MindsDB server is an oracle `Env.oracle : Nat → ExecResult`
  giving the outcome of the k-th low-level `project.query(...).fetch()`
  attempt; `Env.conn` gives the outcome of an SDK `connect` + `get_project`.
* A pandas `DataFrame` is `DF` (column names plus rows of string cells);
  `pd.DataFrame()` is `⟨[], []⟩`.
* Exceptions are modelled by `Except PyExc DF` return values; `PyExc` records
  whether the exception is a `RuntimeError` (the only class the code
  distinguishes) and its `str(e)` message.
* Each handler method is a function from an `Env`, a `Handler` (the mutable
  `self.server` / `self.project` state), a `Trace` (network attempts made,
  SQL texts sent, `print` output) and its parameters to its Python return
  value paired with the final trace.
* `time.sleep` calls are no-ops and are dropped.
* Literal braces, single quotes and double quotes inside Lean string
  literals are written with `\x7b`, `\x7d`, `\x27`, `\x22` escapes.
-/

/-- Python `s.replace("'", "''")`: doubles each embedded single quote. -/
def escSq (s : String) : String :=
  String.mk (s.data.foldr (fun c acc =>
    if c = Char.ofNat 39 then Char.ofNat 39 :: Char.ofNat 39 :: acc else c :: acc) [])

/-- Python `str(v).replace('"', '\\"')`: backslash-escapes each embedded
double quote (used for the embedding/reranking model config values,
`mindsdb_handler.py` lines 150 and 164).  Single quotes are untouched. -/
def escDq (s : String) : String :=
  String.mk (s.data.foldr (fun c acc =>
    if c = Char.ofNat 34 then Char.ofNat 92 :: Char.ofNat 34 :: acc else c :: acc) [])

def subAt : List Char → List Char → Bool
  | n, [] => n.isEmpty
  | n, c :: t => List.isPrefixOf n (c :: t) || subAt n t

/-- Python substring membership: `needle in hay`. -/
def containsSub (needle hay : String) : Bool := subAt needle.data hay.data

/-- Python `s.lower()` (ASCII, which is all the code compares). -/
def pyLower (s : String) : String := String.mk (s.data.map Char.toLower)

/-- Python `s.upper()`. -/
def pyUpper (s : String) : String := String.mk (s.data.map Char.toUpper)

/-- Python `s.startswith(hd)`. -/
def startsW (hd s : String) : Bool := List.isPrefixOf hd.data s.data

/-- Python `s.rstrip('/')`: removes all trailing slashes. -/
def rstripSlash (s : String) : String :=
  String.mk ((s.data.reverse.dropWhile (fun c => c = '/')).reverse)

/-- Python truthiness of an optional string (`None` and `''` are falsy). -/
def optTruthy : Option String → Bool
  | none => false
  | some s => !(s.data.isEmpty)

/-- Index of a column name in a header list (first match). -/
def idxOfStr : List String → String → Nat
  | [], _ => 0
  | c :: t, s => if c = s then 0 else idxOfStr t s + 1

/-- A pandas DataFrame result: header plus rows of (string-rendered) cells. -/
structure DF where
  cols : List String
  rows : List (List String)

/-- pandas `df.empty` (server results carry columns whenever they carry rows,
so emptiness of the row list is the discriminating test used by the code). -/
def DF.emptyDF (df : DF) : Bool := df.rows.isEmpty

/-- pandas `df[c].values`: the cells of column `c`, in row order. -/
def DF.colVals (df : DF) (c : String) : List String :=
  df.rows.map (fun r => r.getD (idxOfStr df.cols c) "")

/-- A Python exception as the handler observes it: whether it is a
`RuntimeError` and its `str(e)` text. -/
structure PyExc where
  isRuntimeError : Bool
  msg : String

/-- Outcome of one low-level `self.project.query(query)` + `.fetch()`. -/
inductive ExecResult
  | ok (df : DF)
  | err (e : PyExc)

/-- Outcome of `mindsdb_sdk.connect` + `server.get_project()` (any failure
anywhere in that sequence raises and is collapsed into `fail`). -/
inductive ConnOutcome
  | ok (projectName : String)
  | fail (errMsg : String)

/-- The external world: the connection outcome and the per-attempt query
oracle standing for the remote MindsDB server. -/
structure Env where
  conn : ConnOutcome
  oracle : Nat → ExecResult

/-- The handler's mutable state: `self.server` and `self.project`
(represented by the connection url and the project name when present). -/
structure Handler where
  server : Option String
  project : Option String

/-- Observable effects: number of low-level query attempts, SQL texts sent,
and `print` output lines. -/
structure Trace where
  attempts : Nat
  sqls : List String
  logs : List String

def Trace.log (t : Trace) (s : String) : Trace := { t with logs := t.logs ++ [s] }

def Trace.logMany (t : Trace) (ls : List String) : Trace := { t with logs := t.logs ++ ls }

def t0 : Trace := ⟨0, [], []⟩

/-- One `self.project.query(query).fetch()` attempt against the oracle. -/
def attempt (env : Env) (t : Trace) (q : String) : ExecResult × Trace :=
  (env.oracle t.attempts, { t with attempts := t.attempts + 1, sqls := t.sqls ++ [q] })

/-! Configuration constants, from `config/config.example.py`. -/

def MINDSDB_HOST : String := "http://127.0.0.1"

def MINDSDB_PORT : Nat := 47334

def GOOGLE_GEMINI_API_KEY : Option String := some "YOUR_GEMINI_API_KEY"

def connUrl : String := MINDSDB_HOST ++ ":" ++ toString MINDSDB_PORT

/-- Embedding of `connect` (lines 17-42): establish transport and resolve the default
project; on any failure clear both handles and return `False`. -/
def connect (env : Env) (h : Handler) (t : Trace) : Bool × Handler × Trace :=
  let t := t.log ("Attempting to connect to MindsDB: " ++ connUrl)
  match env.conn with
  | .ok p =>
      let h := { h with server := some connUrl, project := some p }
      (true, h, t.log ("Successfully connected to MindsDB and got project \x27" ++ p ++ "\x27."))
  | .fail m =>
      let t := t.log ("Error connecting to MindsDB: " ++ m)
      (false, { h with server := none, project := none }, t)

/-- The body of `execute_sql` after the session guard (lines 50-71): one
attempt; on a `RuntimeError` containing "Event loop is closed" exactly one
retry whose outcome is final; a non-matching `RuntimeError` re-raises with
no extra print; any other exception re-raises after the annotated print. -/
def execCore (env : Env) (t : Trace) (q : String) : Except PyExc DF × Trace :=
  let t := t.log ("Executing SQL: " ++ q)
  let (r1, t) := attempt env t q
  match r1 with
  | .ok df => (.ok df, t.log "Query executed successfully via SDK.")
  | .err e =>
    if e.isRuntimeError && containsSub "Event loop is closed" e.msg then
      let t := t.log "Event loop closed, retrying query..."
      let (r2, t) := attempt env t q
      match r2 with
      | .ok df => (.ok df, t.log "Query executed successfully via SDK on retry.")
      | .err e2 => (.error e2, t.log ("MindsDB API Error on retry \x27" ++ q ++ "\x27: " ++ e2.msg))
    else if e.isRuntimeError then
      (.error e, t)
    else
      (.error e, t.log ("MindsDB API Error executing query \x27" ++ q ++ "\x27: " ++ e.msg))

/-- Embedding of `execute_sql` (lines 44-71), including the implicit reconnect when no
project is active (lines 45-48). -/
def execute_sql (env : Env) (h : Handler) (t : Trace) (q : String) :
    Except PyExc DF × Handler × Trace :=
  match h.project with
  | some _ =>
      let (r, t) := execCore env t q
      (r, h, t)
  | none =>
      let t := t.log "No active MindsDB project. Attempting to reconnect..."
      let (b, h, t) := connect env h t
      if !b || h.project.isNone then
        (.error ⟨false, "MindsDB connection not established. Cannot execute query."⟩, h, t)
      else
        let (r, t) := execCore env t q
        (r, h, t)

/-- Embedding of `get_database_custom_check` (lines 73-97): run `SHOW DATABASES;` and look
for the name under the first of the column aliases `Database`/`name`/`NAME`;
every failure mode yields `False`. -/
def get_database_custom_check (env : Env) (h : Handler) (t : Trace) (ds_name : String) :
    Bool × Trace :=
  match h.project with
  | none => (false, t.log "Cannot perform custom database check: No active MindsDB project.")
  | some _ =>
    let t := t.log ("Custom check: Verifying existence of database \x27" ++ ds_name ++ "\x27 using SHOW DATABASES.")
    let (r, _, t) := execute_sql env h t "SHOW DATABASES;"
    match r with
    | .error e =>
        (false, t.log ("Custom check: Error during \x27SHOW DATABASES\x27 for \x27" ++ ds_name ++ "\x27: " ++ e.msg))
    | .ok df =>
      if df.emptyDF then
        (false, t.log "Custom check: \x27SHOW DATABASES\x27 returned no results or failed.")
      else
        match (if df.cols.contains "Database" then some "Database"
               else if df.cols.contains "name" then some "name"
               else if df.cols.contains "NAME" then some "NAME" else none) with
        | none => (false, t.log "Custom check: Could not find a known database name column.")
        | some c =>
          if (df.colVals c).contains ds_name then
            (true, t.log ("Custom check: Database \x27" ++ ds_name ++ "\x27 found."))
          else
            (false, t.log ("Custom check: Database \x27" ++ ds_name ++ "\x27 not found."))

/-! ## Knowledge-base operations -/

/-- Embedding/reranking model config dict (lines 140-147 and 155-162):
`provider` and `model_name` always; `base_url` (right-stripped of slashes)
and `api_key` only when truthy. -/
def modelConfigPairs (provider model_name : String) (base_url api_key : Option String) :
    List (String × String) :=
  [("provider", provider), ("model_name", model_name)]
    ++ (if optTruthy base_url then [("base_url", rstripSlash (base_url.getD ""))] else [])
    ++ (if optTruthy api_key then [("api_key", api_key.getD "")] else [])

/-- The `", ".join(f'"{k}": "{str(v).replace(...)}"')` rendering of a config
dict (lines 150 and 164): keys and values double-quoted, values
backslash-escaped on embedded double quotes. -/
def jsonPairsStr (pairs : List (String × String)) : String :=
  String.intercalate ", " (pairs.map (fun kv => "\x22" ++ kv.1 ++ "\x22: \x22" ++ escDq kv.2 ++ "\x22"))

/-- The content/metadata columns USING option (lines 168-188): absent list
contributes nothing, a singleton becomes a bare quoted string, two or more
elements become a bracketed quoted array in input order.  (The
`isinstance(..., list)`/all-strings guard of the source cannot fail in this
typed embedding.)  Column names are interpolated verbatim, unescaped. -/
def colsOptionClause (key : String) : List String → List String
  | [] => []
  | [c] => [key ++ " = \x27" ++ c ++ "\x27"]
  | cs => [key ++ " = [" ++ String.intercalate ", " (cs.map (fun c => "\x27" ++ c ++ "\x27")) ++ "]"]

/-- The full `USING` clause list of `create_knowledge_base` (lines 137-191). -/
def kbUsingClauses (embedding_provider embedding_model : String)
    (embedding_base_url embedding_api_key reranking_provider reranking_model
     reranking_base_url reranking_api_key : Option String)
    (content_columns metadata_columns : List String) (id_column : Option String) :
    List String :=
  ["embedding_model = \x7b " ++
     jsonPairsStr (modelConfigPairs embedding_provider embedding_model
       embedding_base_url embedding_api_key) ++ " \x7d"]
  ++ (if optTruthy reranking_provider && optTruthy reranking_model then
        ["reranking_model = \x7b " ++
           jsonPairsStr (modelConfigPairs (reranking_provider.getD "") (reranking_model.getD "")
             reranking_base_url reranking_api_key) ++ " \x7d"]
      else [])
  ++ colsOptionClause "content_columns" content_columns
  ++ colsOptionClause "metadata_columns" metadata_columns
  ++ (if optTruthy id_column then ["id_column = \x27" ++ id_column.getD "" ++ "\x27"] else [])

/-- Embedding of `create_knowledge_base` (lines 127-204). -/
def create_knowledge_base (env : Env) (h : Handler) (t : Trace) (kb_name : String)
    (embedding_provider embedding_model : String)
    (embedding_base_url embedding_api_key reranking_provider reranking_model
     reranking_base_url reranking_api_key : Option String)
    (content_columns metadata_columns : List String) (id_column : Option String) :
    Bool × Trace :=
  match h.project with
  | none => (false, t.log "Error: MindsDB connection not established.")
  | some _ =>
    let query := "CREATE KNOWLEDGE_BASE " ++ kb_name ++ " USING " ++
      String.intercalate ", "
        (kbUsingClauses embedding_provider embedding_model embedding_base_url
          embedding_api_key reranking_provider reranking_model reranking_base_url
          reranking_api_key content_columns metadata_columns id_column) ++ ";"
    let (r, _, t) := execute_sql env h t query
    match r with
    | .ok _ => (true, t.log ("Knowledge Base \x27" ++ kb_name ++ "\x27 creation command executed."))
    | .error e =>
      if containsSub "already exists" (pyLower e.msg) then
        (true, t.log ("Knowledge Base \x27" ++ kb_name ++ "\x27 already exists."))
      else
        (false, t.log ("Error creating Knowledge Base \x27" ++ kb_name ++ "\x27: " ++ e.msg))

/-- Embedding of `create_index_on_knowledge_base` (lines 206-210). -/
def create_index_on_knowledge_base (env : Env) (h : Handler) (t : Trace) (kb_name : String) :
    Bool × Trace :=
  match h.project with
  | none => (false, t.log "Error: MindsDB connection not established.")
  | some _ =>
    let query := "CREATE INDEX ON KNOWLEDGE_BASE " ++ kb_name ++ ";"
    let (r, _, t) := execute_sql env h t query
    match r with
    | .ok _ => (true, t.log ("Index creation/rebuild initiated for KB \x27" ++ kb_name ++ "\x27."))
    | .error e => (false, t.log ("Error creating index for KB \x27" ++ kb_name ++ "\x27: " ++ e.msg))

/-- First component of `source_table.split('.')`. -/
def takeUntilDot : List Char → List Char
  | [] => []
  | c :: t => if c = '.' then [] else c :: takeUntilDot t

/-- Embedding of `insert_into_knowledge_base_direct` (lines 212-246).  `metadata_columns`
maps kb column names to source column names; only its values are selected. -/
def insert_into_knowledge_base_direct (env : Env) (h : Handler) (t : Trace)
    (kb_name source_table content_column : String)
    (metadata_columns : List (String × String)) (limit : Option Int)
    (order_by : Option String) : Bool × Trace :=
  match h.project with
  | none => (false, t.log "Error: MindsDB connection not established.")
  | some _ =>
    let select_columns := content_column :: metadata_columns.map Prod.snd
    let query := "INSERT INTO " ++ kb_name ++ " SELECT " ++
        String.intercalate ", " select_columns ++ " FROM " ++ source_table
      ++ (if optTruthy order_by then " ORDER BY " ++ order_by.getD "" else "")
      ++ (match limit with
          | some l => if l > 0 then " LIMIT " ++ toString l else ""
          | none => "")
      ++ ";"
    let (r, _, t) := execute_sql env h t query
    match r with
    | .ok _ =>
        (true, t.log ("Data inserted into KB \x27" ++ kb_name ++ "\x27 successfully from \x27" ++ source_table ++ "\x27."))
    | .error e =>
      let t :=
        if containsSub "Can\x27t select from" e.msg && containsSub "unknown" e.msg then
          (t.log ("Error: The datasource \x27" ++ source_table ++ "\x27 was not found. Please create the datasource first.")).log
            ("You can create a HackerNews datasource using: CREATE DATABASE " ++
              String.mk (takeUntilDot source_table.data) ++ " WITH ENGINE = \x27hackernews\x27;")
        else t
      (false, t.log ("Error inserting data into KB \x27" ++ kb_name ++ "\x27 from \x27" ++ source_table ++ "\x27: " ++ e.msg))

/-- A metadata-filter value as `select_from_knowledge_base` receives it:
a string (quoted equality), a non-string scalar (bare equality, modelled as
an integer), or a MongoDB-style operator dict. -/
inductive FVal
  | fstr (s : String)
  | fint (n : Int)
  | fdict (ops : List (String × Int))

/-- The operator-dict loop of lines 286-296: `$gt/$gte/$lt/$lte` become
`>`, `>=`, `<`, `<=` fragments; anything else is skipped with a warning. -/
def opClauses (col : String) : List (String × Int) → List String × List String
  | [] => ([], [])
  | (op, v) :: rest =>
    let (cs, ws) := opClauses col rest
    if op = "$gt" then ((col ++ " > " ++ toString v) :: cs, ws)
    else if op = "$gte" then ((col ++ " >= " ++ toString v) :: cs, ws)
    else if op = "$lt" then ((col ++ " < " ++ toString v) :: cs, ws)
    else if op = "$lte" then ((col ++ " <= " ++ toString v) :: cs, ws)
    else (cs, ("Warning: Unsupported operator \x27" ++ op ++ "\x27 for column \x27" ++ col ++ "\x27. Skipping.") :: ws)

/-- The metadata-filter loop of lines 282-300, returning the produced WHERE
fragments and the warnings printed while compiling them. -/
def filterClauses : List (String × FVal) → List String × List String
  | [] => ([], [])
  | (col, v) :: rest =>
    let (cs, ws) := filterClauses rest
    match v with
    | .fdict ops =>
        let (cs0, ws0) := opClauses col ops
        (cs0 ++ cs, ws0 ++ ws)
    | .fstr s => ((col ++ " = \x27" ++ escSq s ++ "\x27") :: cs, ws)
    | .fint n => ((col ++ " = " ++ toString n) :: cs, ws)

/-- The SELECT statement built by `select_from_knowledge_base`
(lines 279-306): semantic content predicate first, then the AND-joined
filter fragments, then an optional LIMIT. -/
def selectKbQuery (kb_name query_text : String) (metadata_filters : List (String × FVal))
    (limit : Int) : String :=
  "SELECT * FROM " ++ kb_name ++ " WHERE " ++
    String.intercalate " AND "
      (("content = \x27" ++ escSq query_text ++ "\x27") :: (filterClauses metadata_filters).1)
  ++ (if limit > 0 then " LIMIT " ++ toString limit else "") ++ ";"

/-- Embedding of `select_from_knowledge_base` (lines 269-314).  (The opening
`Querying KB ...` print interpolates the Python repr of the filter dict;
only its stable prefix is modelled.) -/
def select_from_knowledge_base (env : Env) (h : Handler) (t : Trace)
    (kb_name query_text : String) (metadata_filters : List (String × FVal))
    (limit : Int) : Option DF × Trace :=
  match h.project with
  | none => (none, t.log "Error: MindsDB connection not established.")
  | some p =>
    let t := t.log ("Querying KB \x27" ++ p ++ "." ++ kb_name ++ "\x27 for: \x27" ++ query_text ++ "\x27 with filters:")
    let t := t.logMany (filterClauses metadata_filters).2
    let (r, _, t) := execute_sql env h t (selectKbQuery kb_name query_text metadata_filters limit)
    match r with
    | .ok df => (some df, t.log ("Semantic search on KB \x27" ++ kb_name ++ "\x27 executed successfully."))
    | .error e => (none, t.log ("Error performing semantic search on KB \x27" ++ kb_name ++ "\x27: " ++ e.msg))

/-- Embedding of `create_mindsdb_job` (lines 316-326). -/
def create_mindsdb_job (env : Env) (h : Handler) (t : Trace)
    (job_name kb_name hn_datasource hn_table_name schedule_interval : String) :
    Bool × Trace :=
  match h.project with
  | none => (false, t.log "Error: MindsDB connection not established.")
  | some _ =>
    let (insert_cols, select_cols, t) :=
      if hn_table_name = "stories" then ("(content, story_id, author)", "title, id, by", t)
      else if hn_table_name = "comments" then ("(content, comment_id, author)", "text, id, by", t)
      else ("(content, original_id)", "text, id",
            t.log ("Warning: Using generic column mapping for job on table " ++ hn_table_name))
    let job_query_insert := "INSERT INTO " ++ kb_name ++ " " ++ insert_cols ++ " SELECT " ++
      select_cols ++ " FROM " ++ hn_datasource ++ "." ++ hn_table_name ++ " LATEST"
    let full_job_query := "CREATE JOB " ++ job_name ++ " AS (" ++ job_query_insert ++ ") SCHEDULE " ++ schedule_interval ++ ";"
    let (r, _, t) := execute_sql env h t full_job_query
    match r with
    | .ok _ => (true, t.log ("Job \x27" ++ job_name ++ "\x27 creation command executed."))
    | .error e =>
      if containsSub "already exists" (pyLower e.msg) then
        (true, t.log ("Job \x27" ++ job_name ++ "\x27 already exists."))
      else
        (false, t.log ("Error creating job \x27" ++ job_name ++ "\x27: " ++ e.msg))

/-! ## Model operations -/

/-- Embedding of `list_models` (lines 328-350): `None` on no-session or error, an empty
`DF` when the listing is empty, the listing otherwise. -/
def list_models (env : Env) (h : Handler) (t : Trace) (project_name : Option String) :
    Option DF × Trace :=
  if h.project.isNone && !(optTruthy project_name) then
    (none, t.log "Error: MindsDB connection not established and no project specified.")
  else
    let target := if optTruthy project_name then project_name.getD "" else h.project.getD ""
    if target.data.isEmpty then
      (none, t.log "Error: Target project name could not be determined.")
    else
      let query := "SHOW MODELS FROM " ++ target ++ ";"
      let (r, _, t) := execute_sql env h t query
      match r with
      | .ok df =>
        if !df.emptyDF then (some df, t)
        else (some ⟨[], []⟩, t.log ("No models found in project \x27" ++ target ++ "\x27."))
      | .error e =>
        (none, t.log ("Error listing models from project \x27" ++ target ++ "\x27: " ++ e.msg))

/-- The second half of `describe_model`'s except branch (lines 396-406):
one more attempt with the unqualified `DESCRIBE model;` syntax. -/
def describeFallback (env : Env) (h : Handler) (t : Trace) (model_name qfb : String) :
    Option DF × Trace :=
  let (r, _, t) := execute_sql env h t qfb
  match r with
  | .ok df =>
    if !df.emptyDF then (some df, t)
    else (some ⟨[], []⟩, t.log ("Fallback describe for \x27" ++ model_name ++ "\x27 also returned empty or failed."))
  | .error e =>
    (none, t.log ("Error describing model \x27" ++ model_name ++ "\x27 with fallback query: " ++ e.msg))

/-- Embedding of `describe_model` (lines 352-406): `DESCRIBE project.model;`, falling back
to `DESCRIBE model;` when that is empty or raises. -/
def describe_model (env : Env) (h : Handler) (t : Trace) (model_name : String)
    (project_name : Option String) : Option DF × Trace :=
  if h.project.isNone && !(optTruthy project_name) then
    (none, t.log "Error: MindsDB connection not established and no project specified.")
  else
    let target := if optTruthy project_name then project_name.getD "" else h.project.getD ""
    if target.data.isEmpty then
      (none, t.log "Error: Target project name could not be determined.")
    else
      let qualified := target ++ "." ++ model_name
      let query := "DESCRIBE " ++ qualified ++ ";"
      let qfb := "DESCRIBE " ++ model_name ++ ";"
      let (r, _, t) := execute_sql env h t query
      match r with
      | .ok df =>
        if !df.emptyDF then (some df, t)
        else
          let t := t.log ("First describe attempt for \x27" ++ qualified ++ "\x27 returned empty. Trying fallback: " ++ qfb)
          let (r2, _, t) := execute_sql env h t qfb
          match r2 with
          | .ok df2 =>
            if !df2.emptyDF then (some df2, t)
            else (some ⟨[], []⟩,
              t.log ("Model \x27" ++ model_name ++ "\x27 not found or no description available in project \x27" ++ target ++ "\x27 using both syntaxes."))
          | .error e2 =>
            let t := t.log ("Error describing model \x27" ++ qualified ++ "\x27 with initial query: " ++ e2.msg ++ ". Trying fallback syntax.")
            describeFallback env h t model_name qfb
      | .error e =>
        let t := t.log ("Error describing model \x27" ++ qualified ++ "\x27 with initial query: " ++ e.msg ++ ". Trying fallback syntax.")
        describeFallback env h t model_name qfb

/-- Embedding of `drop_model` (lines 408-435): "not found" / "doesn't exist" in the error
message count as an already-completed drop. -/
def drop_model (env : Env) (h : Handler) (t : Trace) (model_name : String)
    (project_name : Option String) : Bool × Trace :=
  if h.project.isNone && !(optTruthy project_name) then
    (false, t.log "Error: MindsDB connection not established and no project specified.")
  else
    let target := if optTruthy project_name then project_name.getD "" else h.project.getD ""
    if target.data.isEmpty then
      (false, t.log "Error: Target project name could not be determined.")
    else
      let qualified := target ++ "." ++ model_name
      let query := "DROP MODEL " ++ qualified ++ ";"
      let (r, _, t) := execute_sql env h t query
      match r with
      | .ok _ => (true, t.log ("Model \x27" ++ qualified ++ "\x27 dropped successfully."))
      | .error e =>
        let err_str := pyLower e.msg
        if containsSub "not found" err_str || containsSub "doesn\x27t exist" err_str then
          (true, t.log ("Model \x27" ++ qualified ++ "\x27 not found, so it\x27s already considered dropped."))
        else
          (false, t.log ("Error dropping model \x27" ++ qualified ++ "\x27: " ++ e.msg))

/-- Embedding of `refresh_model` (lines 437-492): `RETRAIN project.model;`; the follow-up
status check is best-effort only — every path after a successful RETRAIN
returns `True`, and every exception inside it is swallowed.  A row shorter
than two cells at `status_row.iloc[0, 1]` raises a pandas IndexError that
the inner except also swallows. -/
def refresh_model (env : Env) (h : Handler) (t : Trace) (model_name : String)
    (project_name : Option String) : Bool × Trace :=
  if h.project.isNone && !(optTruthy project_name) then
    (false, t.log "Error: MindsDB connection not established and no project specified.")
  else
    let target := if optTruthy project_name then project_name.getD "" else h.project.getD ""
    if target.data.isEmpty then
      (false, t.log "Error: Target project name could not be determined.")
    else
      let qualified := target ++ "." ++ model_name
      let query := "RETRAIN " ++ qualified ++ ";"
      let (r, _, t) := execute_sql env h t query
      match r with
      | .error e => (false, t.log ("Error refreshing model \x27" ++ qualified ++ "\x27: " ++ e.msg))
      | .ok _ =>
        let t := t.log ("Model \x27" ++ qualified ++ "\x27 refresh (retrain) process initiated.")
        let status_query := "SELECT status FROM " ++ target ++ ".models WHERE name = \x27" ++ model_name ++ "\x27;"
        let (rs, _, t) := execute_sql env h t status_query
        match rs with
        | .error se =>
          (true, t.log ("Could not verify status for \x27" ++ qualified ++ "\x27 after refresh: " ++ se.msg ++ ". Assuming initiation was successful if command didn\x27t error."))
        | .ok sdf =>
          if !sdf.emptyDF && sdf.cols.contains "status" then
            (true, t.log ("Model \x27" ++ qualified ++ "\x27 status after refresh initiation: " ++ (sdf.colVals "status").getD 0 ""))
          else
            let (md, t) := describe_model env h t model_name (some target)
            match md with
            | some ddf =>
              if !ddf.emptyDF then
                match ddf.rows.filter (fun r => pyUpper (r.getD 0 "") = "STATUS") with
                | [] => (true, t.log ("Could not determine status for \x27" ++ qualified ++ "\x27 via describe after refresh."))
                | r0 :: _ =>
                  match r0.get? 1 with
                  | some status =>
                    (true, t.log ("Model \x27" ++ qualified ++ "\x27 status (via describe) after refresh initiation: " ++ status))
                  | none =>
                    (true, t.log ("Could not verify status for \x27" ++ qualified ++ "\x27 after refresh: single positional indexer is out-of-bounds. Assuming initiation was successful if command didn\x27t error."))
              else (true, t)
            | none => (true, t)

/-- A value of a `USING` parameter dict: a string, a number (modelled as an
integer), a boolean, or any other object carrying its `str(v)` rendering and
its `json.dumps(v)` rendering (`none` when not JSON-serializable). -/
inductive UVal
  | ustr (s : String)
  | unum (n : Int)
  | ubool (b : Bool)
  | uother (pyStr : String) (jsonStr : Option String)

/-- One `USING` item of `create_model_from_query` (lines 586-595): strings
quote-escaped and quoted, numbers and booleans bare, anything else rendered
through `str(value)`. -/
def uvalClause (key : String) : UVal → String
  | .ustr s => key ++ " = \x27" ++ escSq s ++ "\x27"
  | .unum n => key ++ " = " ++ toString n
  | .ubool b => key ++ " = " ++ (if b then "True" else "False")
  | .uother pyStr _ => key ++ " = " ++ pyStr

/-- The CREATE MODEL statement of `create_model_from_query` (lines 597-611). -/
def modelQuery (model_name project_name select_data_query predict_column : String)
    (using_params : List (String × UVal)) : String :=
  let parts := using_params.map (fun kv => uvalClause kv.1 kv.2)
  let using_statement := if parts.isEmpty then "" else "USING " ++ String.intercalate ", " parts
  "CREATE MODEL " ++ model_name ++ "\nFROM " ++ project_name ++ " (" ++ select_data_query ++
    ")\nPREDICT " ++ predict_column ++ "\n" ++ using_statement ++ ";"

/-- Embedding of `create_model_from_query` (lines 575-645).  After a successful CREATE the
code verifies via `describe_model`, then via `list_models`; a missing `name`
column in the model listing raises `KeyError('name')` which the outer except
turns into a failure (its `str(e)` is `'name'`); a describe row shorter than
two cells likewise raises at `status_row.iloc[0, 1]`. -/
def create_model_from_query (env : Env) (h : Handler) (t : Trace)
    (model_name project_name select_data_query predict_column : String)
    (using_params : List (String × UVal)) : Bool × Trace :=
  match h.project with
  | none => (false, t.log "Error: MindsDB connection not established.")
  | some _ =>
    let query := modelQuery model_name project_name select_data_query predict_column using_params
    let (r, _, t) := execute_sql env h t query
    match r with
    | .error e =>
      let err_str := pyLower e.msg
      if containsSub "already exists" err_str || containsSub "already created" err_str then
        (true, t.log ("AI Model \x27" ++ model_name ++ "\x27 already exists."))
      else
        (false, t.log ("Error during AI Model \x27" ++ model_name ++ "\x27 creation process: " ++ e.msg))
    | .ok _ =>
      let t := t.log ("AI Model \x27" ++ model_name ++ "\x27 creation command executed. Verifying model registration...")
      let (md, t) := describe_model env h t model_name (some project_name)
      let describable := match md with
        | some ddf => !ddf.emptyDF
        | none => false
      match md, describable with
      | some ddf, true =>
        let t := t.log ("AI Model \x27" ++ model_name ++ "\x27 successfully registered and is describable.")
        (match ddf.rows.filter (fun r => pyUpper (r.getD 0 "") = "STATUS") with
         | [] => (true, t)
         | r0 :: _ =>
           match r0.get? 1 with
           | some status => (true, t.log ("Initial status of \x27" ++ model_name ++ "\x27: " ++ status))
           | none =>
             (false, t.log ("Error during AI Model \x27" ++ model_name ++ "\x27 creation process: single positional indexer is out-of-bounds")))
      | _, _ =>
        let t := t.log ("AI Model \x27" ++ model_name ++ "\x27 not found or not describable shortly after creation command. It might be still pending or failed to register. Please check with \x27ai describe-model\x27.")
        let (ml, t) := list_models env h t (some project_name)
        match ml with
        | some mdf =>
          if mdf.cols.contains "name" then
            if (mdf.colVals "name").contains model_name then
              (true, t.log ("Model \x27" ++ model_name ++ "\x27 found in list_models, so creation likely initiated. Describe might be slow."))
            else
              (false, t.log ("Model \x27" ++ model_name ++ "\x27 also not found in list_models."))
          else
            (false, t.log ("Error during AI Model \x27" ++ model_name ++ "\x27 creation process: \x27name\x27"))
        | none => (false, t.log ("Model \x27" ++ model_name ++ "\x27 also not found in list_models."))

/-! ## Agent operations -/

/-- Keys of `other_params` that `create_kb_agent` skips (line 701). -/
def agentSkipKeys : List String :=
  ["model", "google_api_key", "include_knowledge_bases", "include_tables",
   "prompt_template", "provider", "api_key", "knowledge_base"]

/-- The `other_params` loop of `create_kb_agent` (lines 698-714): strings
quote-escaped and quoted, numbers and booleans bare, other values rendered
through `json.dumps` then quoted, unserializable values skipped with a
warning. -/
def agentParamClauses (agent_name : String) :
    List (String × UVal) → List String × List String
  | [] => ([], [])
  | (key, v) :: rest =>
    let (cs, ws) := agentParamClauses agent_name rest
    if agentSkipKeys.contains (pyLower key) then (cs, ws)
    else
      match v with
      | .ustr s => ((key ++ " = \x27" ++ escSq s ++ "\x27") :: cs, ws)
      | .unum n => ((key ++ " = " ++ toString n) :: cs, ws)
      | .ubool b => ((key ++ " = " ++ (if b then "True" else "False")) :: cs, ws)
      | .uother _ (some j) => ((key ++ " = \x27" ++ escSq j ++ "\x27") :: cs, ws)
      | .uother _ none =>
        (cs, ("Warning: Parameter \x27" ++ key ++ "\x27 from other_params for agent \x27" ++ agent_name ++ "\x27 could not be serialized to a valid SQL literal. Skipping.") :: ws)

/-- Embedding of the check `other_params.get('provider', '').lower() == 'google'` (line 667). -/
def providerIsGoogle (other_params : List (String × UVal)) : Bool :=
  match (other_params.find? (fun kv => kv.1 = "provider")).map Prod.snd with
  | some (.ustr s) => pyLower s = "google"
  | _ => false

/-- Embedding of `create_kb_agent` (lines 648-728). -/
def create_kb_agent (env : Env) (h : Handler) (t : Trace)
    (agent_name model_name : String) (include_knowledge_bases : List String)
    (google_api_key : Option String) (include_tables : List String)
    (prompt_template : Option String) (other_params : List (String × UVal)) :
    Bool × Trace :=
  match h.project with
  | none => (false, t.log "Error: MindsDB connection not established.")
  | some _ =>
    let clauses0 := ["model = \x27" ++ model_name ++ "\x27"]
    let (gClauses, t) :=
      if optTruthy google_api_key then
        (["google_api_key = \x27" ++ google_api_key.getD "" ++ "\x27"], t)
      else if containsSub "google" (pyLower model_name) ||
              (!other_params.isEmpty && providerIsGoogle other_params) then
        match GOOGLE_GEMINI_API_KEY with
        | some k => (["google_api_key = \x27" ++ k ++ "\x27"], t)
        | none =>
          ([], t.log "Warning: Google model specified or inferred, but google_api_key not provided and not in config. Agent creation might fail.")
      else ([], t)
    if include_knowledge_bases.isEmpty then
      (false, t.log "Error: \x27include_knowledge_bases\x27 must be a non-empty list of strings.")
    else
      let kb_list_str := "[" ++ String.intercalate ", "
        (include_knowledge_bases.map (fun kb => "\x27" ++ escSq kb ++ "\x27")) ++ "]"
      let tClauses :=
        if !include_tables.isEmpty then
          ["include_tables = [" ++ String.intercalate ", "
            (include_tables.map (fun tbl => "\x27" ++ escSq tbl ++ "\x27")) ++ "]"]
        else []
      let pClauses :=
        match prompt_template with
        | some pt =>
          if !pt.data.isEmpty then
            ["prompt_template = \x27\x27\x27" ++ escSq pt ++ "\x27\x27\x27"]
          else []
        | none => []
      let (oClauses, ws) := agentParamClauses agent_name other_params
      let t := t.logMany ws
      let using_clauses := clauses0 ++ gClauses ++
        ["include_knowledge_bases = " ++ kb_list_str] ++ tClauses ++ pClauses ++ oClauses
      let query := "CREATE AGENT " ++ agent_name ++ " USING " ++
        String.intercalate ", " using_clauses ++ ";"
      let (r, _, t) := execute_sql env h t query
      match r with
      | .ok _ => (true, t.log ("Agent \x27" ++ agent_name ++ "\x27 creation command executed successfully."))
      | .error e =>
        let err_str := pyLower e.msg
        if containsSub "already exists" err_str || containsSub "already created" err_str then
          (true, t.log ("Agent \x27" ++ agent_name ++ "\x27 already exists."))
        else
          (false, t.log ("Error creating agent \x27" ++ agent_name ++ "\x27: " ++ e.msg))

/-- What `query_kb_agent` hands back to its caller: the `answer` scalar, the
full first row as a dict, one of its literal fallback strings, or `None`. -/
inductive AgentReply
  | scalar (s : String)
  | rowDict (kv : List (String × String))
  | message (s : String)
  | nores

/-- Embedding of `query_kb_agent` (lines 730-753).  (The inline
`if not results_df.empty else ...` alternative on line 744 is dead code:
that branch is only reached when the frame is non-empty.) -/
def query_kb_agent (env : Env) (h : Handler) (t : Trace)
    (agent_name question : String) : AgentReply × Trace :=
  match h.project with
  | none => (.nores, t.log "Error: MindsDB connection not established.")
  | some _ =>
    let query := "SELECT answer FROM " ++ agent_name ++ " WHERE question = \x27" ++ escSq question ++ "\x27;"
    let t := t.log ("Querying agent \x27" ++ agent_name ++ "\x27 with question: \x27" ++ question ++ "\x27...")
    let (r, _, t) := execute_sql env h t query
    match r with
    | .ok df =>
      if !df.emptyDF then
        if df.cols.contains "answer" && (df.colVals "answer").length > 0 then
          (.scalar ((df.colVals "answer").getD 0 ""), t)
        else
          (.rowDict (List.zip df.cols (df.rows.getD 0 [])),
           t.log ("Warning: \x27answer\x27 column not found in agent output. Columns: " ++
             String.intercalate ", " df.cols ++ ". Returning full first row dict."))
      else
        (.message "Agent returned no results.",
         t.log ("Agent \x27" ++ agent_name ++ "\x27 returned no results for the question."))
    | .error e =>
      (.nores, t.log ("Error querying agent \x27" ++ agent_name ++ "\x27: " ++ e.msg))

/-! ## Job operations -/

/-- Embedding of `create_job` (lines 755-811): `CREATE JOB IF NOT EXISTS` with optional
START/END dates, a schedule interval prefixed with `EVERY` when absent, and
an optional IF guard.  Any execution error is reported as failure — there is
no "already exists" special case here. -/
def create_job (env : Env) (h : Handler) (t : Trace) (job_name : String)
    (statements : List String)
    (project_name start_date end_date schedule_interval if_condition : Option String) :
    Bool × Trace :=
  match h.project with
  | none => (false, t.log "Error: MindsDB connection not established.")
  | some _ =>
    let job_full_name :=
      if optTruthy project_name then project_name.getD "" ++ "." ++ job_name else job_name
    let statements_str := String.intercalate ";\n    " statements
    let query_parts :=
      ["CREATE JOB IF NOT EXISTS " ++ job_full_name ++ " ("]
      ++ ["    " ++ statements_str] ++ [")"]
      ++ (if optTruthy start_date then ["START \x27" ++ start_date.getD "" ++ "\x27"] else [])
      ++ (if optTruthy end_date then ["END \x27" ++ end_date.getD "" ++ "\x27"] else [])
      ++ (match schedule_interval with
          | some si =>
            if !si.data.isEmpty then
              [if !(startsW "EVERY" (pyUpper si)) then "EVERY " ++ si else si]
            else []
          | none => [])
      ++ (if optTruthy if_condition then ["IF (" ++ if_condition.getD "" ++ ")"] else [])
    let query := String.intercalate "\n" query_parts ++ ";"
    let t := (t.log ("Creating job \x27" ++ job_name ++ "\x27 with query:")).log query
    let (r, _, t) := execute_sql env h t query
    match r with
    | .ok _ => (true, t.log ("Job \x27" ++ job_name ++ "\x27 created successfully."))
    | .error e => (false, t.log ("Error creating job \x27" ++ job_name ++ "\x27: " ++ e.msg))

/-- Embedding of `list_jobs` (lines 844-874). -/
def list_jobs (env : Env) (h : Handler) (t : Trace) (project_name : Option String) :
    Option DF × Trace :=
  match h.project with
  | none => (none, t.log "Error: MindsDB connection not established.")
  | some _ =>
    let query :=
      if optTruthy project_name then "SELECT * FROM " ++ project_name.getD "" ++ ".jobs;"
      else "SHOW JOBS;"
    let (r, _, t) := execute_sql env h t query
    match r with
    | .ok df =>
      if !df.emptyDF then (some df, t.log "Available jobs:")
      else (none, t.log "No jobs found.")
    | .error e => (none, t.log ("Error listing jobs: " ++ e.msg))

/-- Embedding of `get_job_status` (lines 876-904); `project_name` defaults to `mindsdb`
at the call sites. -/
def get_job_status (env : Env) (h : Handler) (t : Trace)
    (job_name project_name : String) : Option DF × Trace :=
  match h.project with
  | none => (none, t.log "Error: MindsDB connection not established.")
  | some _ =>
    let query := "SELECT * FROM " ++ project_name ++ ".jobs WHERE name = \x27" ++ job_name ++ "\x27;"
    let (r, _, t) := execute_sql env h t query
    match r with
    | .ok df =>
      if !df.emptyDF then (some df, t.log ("Job \x27" ++ job_name ++ "\x27 status:"))
      else (none, t.log ("Job \x27" ++ job_name ++ "\x27 not found."))
    | .error e => (none, t.log ("Error getting job status for \x27" ++ job_name ++ "\x27: " ++ e.msg))

/-- Embedding of `get_job_history` (lines 906-934). -/
def get_job_history (env : Env) (h : Handler) (t : Trace)
    (job_name project_name : String) : Option DF × Trace :=
  match h.project with
  | none => (none, t.log "Error: MindsDB connection not established.")
  | some _ =>
    let query := "SELECT * FROM log.jobs_history WHERE project = \x27" ++ project_name ++ "\x27 AND name = \x27" ++ job_name ++ "\x27"
    let (r, _, t) := execute_sql env h t query
    match r with
    | .ok df =>
      if !df.emptyDF then (some df, t.log ("Job \x27" ++ job_name ++ "\x27 execution history:"))
      else (none, t.log ("No execution history found for job \x27" ++ job_name ++ "\x27."))
    | .error e => (none, t.log ("Error getting job history for \x27" ++ job_name ++ "\x27: " ++ e.msg))

/-- The query loop of `get_job_logs` (lines 959-970): try each candidate
query, skipping failures and empty results. -/
def jobLogsLoop (env : Env) (h : Handler) (job_name : String) :
    Trace → List String → Option DF × Trace
  | t, [] =>
    (none, t.log ("No detailed logs found for job \x27" ++ job_name ++ "\x27. Try checking job status or history."))
  | t, q :: rest =>
    let (r, _, t) := execute_sql env h t q
    match r with
    | .ok df =>
      if !df.emptyDF then (some df, t.log ("Job \x27" ++ job_name ++ "\x27 information:"))
      else jobLogsLoop env h job_name t rest
    | .error _ => jobLogsLoop env h job_name t rest

/-- Embedding of `get_job_logs` (lines 936-973). -/
def get_job_logs (env : Env) (h : Handler) (t : Trace)
    (job_name project_name : String) : Option DF × Trace :=
  match h.project with
  | none => (none, t.log "Error: MindsDB connection not established.")
  | some _ =>
    jobLogsLoop env h job_name t
      ["SELECT * FROM log.jobs WHERE project = \x27" ++ project_name ++ "\x27 AND name = \x27" ++ job_name ++ "\x27 ORDER BY created_at DESC;",
       "SELECT * FROM information_schema.jobs WHERE project = \x27" ++ project_name ++ "\x27 AND name = \x27" ++ job_name ++ "\x27;",
       "SELECT * FROM " ++ project_name ++ ".jobs WHERE name = \x27" ++ job_name ++ "\x27;"]

/-- Embedding of `drop_job` (lines 975-999): `DROP JOB IF EXISTS`; any execution error is
reported as failure — there is no "not found" special case here. -/
def drop_job (env : Env) (h : Handler) (t : Trace) (job_name : String)
    (project_name : Option String) : Bool × Trace :=
  match h.project with
  | none => (false, t.log "Error: MindsDB connection not established.")
  | some _ =>
    let job_full_name :=
      if optTruthy project_name then project_name.getD "" ++ "." ++ job_name else job_name
    let query := "DROP JOB IF EXISTS " ++ job_full_name ++ ";"
    let (r, _, t) := execute_sql env h t query
    match r with
    | .ok _ => (true, t.log ("Job \x27" ++ job_name ++ "\x27 deleted successfully."))
    | .error e => (false, t.log ("Error deleting job \x27" ++ job_name ++ "\x27: " ++ e.msg))

/-! ## Knowledge-base evaluation -/

/-- The `llm_other_params` loop of `evaluate_knowledge_base`
(lines 1048-1059): `'key': 'value'` items, strings quote-escaped, numbers
and booleans bare, other values JSON-dumped then quoted, unserializable
values skipped with a warning. -/
def llmParamClauses : List (String × UVal) → List String × List String
  | [] => ([], [])
  | (key, v) :: rest =>
    let (cs, ws) := llmParamClauses rest
    match v with
    | .ustr s => (("\x27" ++ key ++ "\x27: \x27" ++ escSq s ++ "\x27") :: cs, ws)
    | .unum n => (("\x27" ++ key ++ "\x27: " ++ toString n) :: cs, ws)
    | .ubool b => (("\x27" ++ key ++ "\x27: " ++ (if b then "True" else "False")) :: cs, ws)
    | .uother _ (some j) => (("\x27" ++ key ++ "\x27: \x27" ++ escSq j ++ "\x27") :: cs, ws)
    | .uother _ none =>
      (cs, ("Warning: LLM parameter \x27" ++ key ++ "\x27 could not be serialized. Skipping.") :: ws)

/-- The `USING` clause list of `evaluate_knowledge_base` (lines 1017-1064). -/
def evalUsingClauses (test_table : String) (version generate_data_from_sql : Option String)
    (generate_data_count : Option Int) (generate_data_flag run_evaluation : Bool)
    (llm_provider llm_api_key llm_model_name llm_base_url : Option String)
    (llm_other_params : List (String × UVal)) (save_to_table : Option String) :
    List String :=
  ["test_table = " ++ test_table]
  ++ (if optTruthy version then ["version = \x27" ++ version.getD "" ++ "\x27"] else [])
  ++ (if generate_data_flag then ["generate_data = true"]
      else if optTruthy generate_data_from_sql || generate_data_count.isSome then
        let parts :=
          (if optTruthy generate_data_from_sql then
            ["\x27from_sql\x27: \x27\x27\x27" ++ escSq (generate_data_from_sql.getD "") ++ "\x27\x27\x27"]
           else [])
          ++ (match generate_data_count with
              | some n => ["\x27count\x27: " ++ toString n]
              | none => [])
        if parts.isEmpty then []
        else ["generate_data = \x7b " ++ String.intercalate ", " parts ++ " \x7d"]
      else [])
  ++ (if run_evaluation then [] else ["evaluate = false"])
  ++ (if optTruthy llm_model_name then
        ["llm = \x7b " ++ String.intercalate ", "
          (["\x27model_name\x27: \x27" ++ llm_model_name.getD "" ++ "\x27"]
           ++ (if optTruthy llm_provider then ["\x27provider\x27: \x27" ++ llm_provider.getD "" ++ "\x27"] else [])
           ++ (if optTruthy llm_api_key then ["\x27api_key\x27: \x27" ++ llm_api_key.getD "" ++ "\x27"] else [])
           ++ (if optTruthy llm_base_url then ["\x27base_url\x27: \x27" ++ rstripSlash (llm_base_url.getD "") ++ "\x27"] else [])
           ++ (llmParamClauses llm_other_params).1) ++ " \x7d"]
      else [])
  ++ (if optTruthy save_to_table then ["save_to = " ++ save_to_table.getD ""] else [])

/-- Embedding of `evaluate_knowledge_base` (lines 1001-1075). -/
def evaluate_knowledge_base (env : Env) (h : Handler) (t : Trace)
    (kb_name test_table : String) (version generate_data_from_sql : Option String)
    (generate_data_count : Option Int) (generate_data_flag run_evaluation : Bool)
    (llm_provider llm_api_key llm_model_name llm_base_url : Option String)
    (llm_other_params : List (String × UVal)) (save_to_table : Option String) :
    Option DF × Trace :=
  match h.project with
  | none => (none, t.log "Error: MindsDB connection not established.")
  | some _ =>
    let t := t.logMany
      (if optTruthy llm_model_name then (llmParamClauses llm_other_params).2 else [])
    let query := "EVALUATE KNOWLEDGE_BASE " ++ kb_name ++ " USING " ++
      String.intercalate ", "
        (evalUsingClauses test_table version generate_data_from_sql generate_data_count
          generate_data_flag run_evaluation llm_provider llm_api_key llm_model_name
          llm_base_url llm_other_params save_to_table) ++ ";"
    let t := t.log ("Executing evaluation for KB \x27" ++ kb_name ++ "\x27...")
    let (r, _, t) := execute_sql env h t query
    match r with
    | .ok df => (some df, t.log ("Evaluation for KB \x27" ++ kb_name ++ "\x27 completed."))
    | .error e => (none, t.log ("Error evaluating Knowledge Base \x27" ++ kb_name ++ "\x27: " ++ e.msg))

/-! ## Environments used in the theorems -/

/-- A server that answers every query attempt with the same DataFrame. -/
def okEnv (df : DF) : Env := ⟨ConnOutcome.fail "connection refused", fun _ => ExecResult.ok df⟩

/-- A server that raises the same exception on every query attempt. -/
def errEnv (e : PyExc) : Env := ⟨ConnOutcome.fail "connection refused", fun _ => ExecResult.err e⟩

/-- An oracle answering the first attempt with `r1` and every later attempt
with `r2`. -/
def oracle2 (r1 r2 : ExecResult) : Nat → ExecResult := fun k => if k = 0 then r1 else r2

/-- Modelled from the spec: the alias resolution of the catalog-listing
presence check — the database-name column is the first of
`Database`/`name`/`NAME` present in the header. -/
def dbNameAliasCol (cols : List String) : Option String :=
  if cols.contains "Database" then some "Database"
  else if cols.contains "name" then some "name"
  else if cols.contains "NAME" then some "NAME" else none

/-- Modelled from the spec: `get_database_custom_check` should report
presence exactly when the `SHOW DATABASES` result is non-empty, carries one
of the three aliases, and lists the requested name under it. -/
def dbCheckSpec (df : DF) (name : String) : Bool :=
  if df.rows.isEmpty then false
  else
    match dbNameAliasCol df.cols with
    | some c => (df.colVals c).contains name
    | none => false

/-! ## Claim theorems -/

/-- C6: `connect` returns a boolean and never raises past its boundary: on
any failure during transport establishment or default-project resolution it
sets both the server and project handles to `None` and returns `False`; on
success it leaves an established project handle and returns `True`. -/
theorem connect_session_boundary :
    ∀ (o : Nat → ExecResult) (p m : String) (h : Handler) (t : Trace),
      (connect ⟨ConnOutcome.ok p, o⟩ h t).1 = true ∧
      ((connect ⟨ConnOutcome.ok p, o⟩ h t).2.1).project = some p ∧
      ((connect ⟨ConnOutcome.ok p, o⟩ h t).2.1).server = some connUrl ∧
      (connect ⟨ConnOutcome.fail m, o⟩ h t).1 = false ∧
      ((connect ⟨ConnOutcome.fail m, o⟩ h t).2.1).server = none ∧
      ((connect ⟨ConnOutcome.fail m, o⟩ h t).2.1).project = none := by
  intro o p m h t
  exact ⟨rfl, rfl, rfl, rfl, rfl, rfl⟩

/-- C7: with no established session (project handle `None`, and no explicit
project name for the model operations), every remote-entity operation other
than `connect`/`execute_sql` fails fast — it returns its failure value
(`False`, `None`) and sends no SQL at all. -/
theorem no_session_fails_fast :
    ∀ (env : Env) (srv : Option String) (t : Trace) (s1 s2 s3 s4 s5 : String)
      (ls : List String) (kvs : List (String × String)) (fs : List (String × FVal))
      (ups : List (String × UVal)) (lim : Int) (oi : Option Int)
      (os : Option String) (b1 b2 : Bool),
      (create_knowledge_base env ⟨srv, none⟩ t s1 s2 s3 os os os os os os ls ls os).1 = false ∧
      (create_knowledge_base env ⟨srv, none⟩ t s1 s2 s3 os os os os os os ls ls os).2.sqls = t.sqls ∧
      (create_index_on_knowledge_base env ⟨srv, none⟩ t s1).1 = false ∧
      (create_index_on_knowledge_base env ⟨srv, none⟩ t s1).2.sqls = t.sqls ∧
      (insert_into_knowledge_base_direct env ⟨srv, none⟩ t s1 s2 s3 kvs oi os).1 = false ∧
      (insert_into_knowledge_base_direct env ⟨srv, none⟩ t s1 s2 s3 kvs oi os).2.sqls = t.sqls ∧
      (select_from_knowledge_base env ⟨srv, none⟩ t s1 s2 fs lim).1 = none ∧
      (select_from_knowledge_base env ⟨srv, none⟩ t s1 s2 fs lim).2.sqls = t.sqls ∧
      (evaluate_knowledge_base env ⟨srv, none⟩ t s1 s2 os os oi b1 b2 os os os os ups os).1 = none ∧
      (evaluate_knowledge_base env ⟨srv, none⟩ t s1 s2 os os oi b1 b2 os os os os ups os).2.sqls = t.sqls ∧
      (create_model_from_query env ⟨srv, none⟩ t s1 s2 s3 s4 ups).1 = false ∧
      (create_model_from_query env ⟨srv, none⟩ t s1 s2 s3 s4 ups).2.sqls = t.sqls ∧
      (list_models env ⟨srv, none⟩ t none).1 = none ∧
      (list_models env ⟨srv, none⟩ t none).2.sqls = t.sqls ∧
      (describe_model env ⟨srv, none⟩ t s1 none).1 = none ∧
      (describe_model env ⟨srv, none⟩ t s1 none).2.sqls = t.sqls ∧
      (drop_model env ⟨srv, none⟩ t s1 none).1 = false ∧
      (drop_model env ⟨srv, none⟩ t s1 none).2.sqls = t.sqls ∧
      (refresh_model env ⟨srv, none⟩ t s1 none).1 = false ∧
      (refresh_model env ⟨srv, none⟩ t s1 none).2.sqls = t.sqls ∧
      (create_kb_agent env ⟨srv, none⟩ t s1 s2 ls os ls os ups).1 = false ∧
      (create_kb_agent env ⟨srv, none⟩ t s1 s2 ls os ls os ups).2.sqls = t.sqls ∧
      (query_kb_agent env ⟨srv, none⟩ t s1 s2).1 = AgentReply.nores ∧
      (query_kb_agent env ⟨srv, none⟩ t s1 s2).2.sqls = t.sqls ∧
      (create_job env ⟨srv, none⟩ t s1 ls os os os os os).1 = false ∧
      (create_job env ⟨srv, none⟩ t s1 ls os os os os os).2.sqls = t.sqls ∧
      (list_jobs env ⟨srv, none⟩ t os).1 = none ∧
      (list_jobs env ⟨srv, none⟩ t os).2.sqls = t.sqls ∧
      (get_job_status env ⟨srv, none⟩ t s1 s5).1 = none ∧
      (get_job_status env ⟨srv, none⟩ t s1 s5).2.sqls = t.sqls ∧
      (get_job_history env ⟨srv, none⟩ t s1 s5).1 = none ∧
      (get_job_history env ⟨srv, none⟩ t s1 s5).2.sqls = t.sqls ∧
      (get_job_logs env ⟨srv, none⟩ t s1 s5).1 = none ∧
      (get_job_logs env ⟨srv, none⟩ t s1 s5).2.sqls = t.sqls ∧
      (drop_job env ⟨srv, none⟩ t s1 os).1 = false ∧
      (drop_job env ⟨srv, none⟩ t s1 os).2.sqls = t.sqls := by
  intro env srv t s1 s2 s3 s4 s5 ls kvs fs ups lim oi os b1 b2
  exact ⟨rfl, rfl, rfl, rfl, rfl, rfl, rfl, rfl, rfl, rfl, rfl, rfl, rfl, rfl, rfl, rfl,
         rfl, rfl, rfl, rfl, rfl, rfl, rfl, rfl, rfl, rfl, rfl, rfl, rfl, rfl, rfl, rfl,
         rfl, rfl, rfl, rfl⟩

theorem fstIfBool (c : Bool) (t1 t2 : Trace) :
    (if c then ((true : Bool), t1) else ((false : Bool), t2)).1 = c := by
  cases c <;> simp

theorem fstIteBool (c : Prop) [Decidable c] (t1 t2 : Trace) :
    (if c then ((true : Bool), t1) else ((false : Bool), t2)).1 = decide c := by
  by_cases h : c <;> simp [h]

/-- C8: `get_database_custom_check(name)` returns true exactly when the
`SHOW DATABASES` result lists the name under its database-name column
(whichever of `Database`/`name`/`NAME` it carries, resolved in that order);
an absent alias, an empty or missing result, a query error, or an absent
session all yield `false` instead of raising. -/
theorem db_check_alias_roundtrip :
    ∀ (srv : Option String) (p name m : String) (df : DF) (e : PyExc)
      (o : Nat → ExecResult) (t : Trace),
      (get_database_custom_check (okEnv df) ⟨srv, some p⟩ t name).1 = dbCheckSpec df name ∧
      (get_database_custom_check (errEnv e) ⟨srv, some p⟩ t name).1 = false ∧
      (get_database_custom_check ⟨ConnOutcome.fail m, o⟩ ⟨srv, none⟩ t name).1 = false := by
  intro srv p name m df e o t
  refine ⟨?_, ?_, rfl⟩
  · obtain ⟨cols, rows⟩ := df
    cases rows with
    | nil => rfl
    | cons r rs =>
      by_cases h1 : "Database" ∈ cols <;>
        by_cases h2 : "name" ∈ cols <;>
          by_cases h3 : "NAME" ∈ cols <;>
            simp [get_database_custom_check, okEnv, execute_sql, execCore, attempt,
              Trace.log, dbCheckSpec, dbNameAliasCol, DF.emptyDF, h1, h2, h3, fstIteBool]
  · obtain ⟨bre, msg⟩ := e
    cases bre <;>
      by_cases hc : containsSub "Event loop is closed" msg <;>
        simp [get_database_custom_check, errEnv, execute_sql, execCore, attempt,
          Trace.log, hc]

/-- C9: `query_kb_agent` returns the scalar value of the `answer` column of
the first result row when that column is present in a non-empty result; when
the result is non-empty but lacks an `answer` column it logs that the
expected shape was not met and returns the entire first row as a key-value
dictionary instead of failing. -/
theorem agent_answer_scalar_fallback :
    ∀ (cn : ConnOutcome) (srv : Option String) (p an q : String)
      (cols r0 : List String) (rs : List (List String)) (t : Trace),
      ("answer" ∈ cols →
        (query_kb_agent ⟨cn, fun _ => ExecResult.ok ⟨cols, r0 :: rs⟩⟩ ⟨srv, some p⟩ t an q).1
          = AgentReply.scalar (r0.getD (idxOfStr cols "answer") "")) ∧
      ("answer" ∉ cols →
        (query_kb_agent ⟨cn, fun _ => ExecResult.ok ⟨cols, r0 :: rs⟩⟩ ⟨srv, some p⟩ t an q).1
          = AgentReply.rowDict (List.zip cols r0) ∧
        ((query_kb_agent ⟨cn, fun _ => ExecResult.ok ⟨cols, r0 :: rs⟩⟩ ⟨srv, some p⟩ t an q).2.logs).contains
          ("Warning: \x27answer\x27 column not found in agent output. Columns: " ++
            String.intercalate ", " cols ++ ". Returning full first row dict.") = true) := by
  intro cn srv p an q cols r0 rs t
  constructor
  · intro h
    simp [query_kb_agent, execute_sql, execCore, attempt, Trace.log, DF.emptyDF,
      DF.colVals, h]
  · intro h
    constructor
    · simp [query_kb_agent, execute_sql, execCore, attempt, Trace.log, DF.emptyDF,
        DF.colVals, h]
    · simp [query_kb_agent, execute_sql, execCore, attempt, Trace.log, DF.emptyDF,
        DF.colVals, h]

theorem agent_answer_scalar_fallback_witness :
    (query_kb_agent ⟨ConnOutcome.fail "x", fun _ => ExecResult.ok ⟨["answer"], [["42"]]⟩⟩
        ⟨none, some "mindsdb"⟩ t0 "ag" "why?").1 = AgentReply.scalar "42" ∧
    (query_kb_agent ⟨ConnOutcome.fail "x", fun _ => ExecResult.ok ⟨["response"], [["42"]]⟩⟩
        ⟨none, some "mindsdb"⟩ t0 "ag" "why?").1 = AgentReply.rowDict [("response", "42")] :=
  ⟨(agent_answer_scalar_fallback (ConnOutcome.fail "x") none "mindsdb" "ag" "why?"
      ["answer"] ["42"] [] t0).1 (by decide),
   ((agent_answer_scalar_fallback (ConnOutcome.fail "x") none "mindsdb" "ag" "why?"
      ["response"] ["42"] [] t0).2 (by decide)).1⟩

/-- C3: an operator entry `{col: {"$gt": v}}` compiles to the fragment
`col > v` (and `$gte`, `$lt`, `$lte` to `>=`, `<`, `<=`); a string-equality
entry compiles to `col = 'v'` single-quoted with quotes doubled; and the
generated SELECT AND-joins all produced fragments after the semantic content
predicate. -/
theorem metadata_filter_translation :
    ∀ (col s kb qt p : String) (v lim : Int) (fs : List (String × FVal))
      (cn : ConnOutcome) (df : DF) (srv : Option String) (t : Trace),
      (filterClauses [(col, FVal.fdict [("$gt", v)])]).1 = [col ++ " > " ++ toString v] ∧
      (filterClauses [(col, FVal.fdict [("$gte", v)])]).1 = [col ++ " >= " ++ toString v] ∧
      (filterClauses [(col, FVal.fdict [("$lt", v)])]).1 = [col ++ " < " ++ toString v] ∧
      (filterClauses [(col, FVal.fdict [("$lte", v)])]).1 = [col ++ " <= " ++ toString v] ∧
      (filterClauses [(col, FVal.fstr s)]).1 = [col ++ " = \x27" ++ escSq s ++ "\x27"] ∧
      (select_from_knowledge_base ⟨cn, fun _ => ExecResult.ok df⟩ ⟨srv, some p⟩ t kb qt fs lim).2.sqls
        = t.sqls ++ ["SELECT * FROM " ++ kb ++ " WHERE " ++
            String.intercalate " AND "
              (("content = \x27" ++ escSq qt ++ "\x27") :: (filterClauses fs).1)
            ++ (if lim > 0 then " LIMIT " ++ toString lim else "") ++ ";"] := by
  intro col s kb qt p v lim fs cn df srv t
  refine ⟨?_, ?_, ?_, ?_, rfl, rfl⟩ <;>
    simp [filterClauses, opClauses]

/-- C4: a single-element content/metadata column list is emitted as a bare
single-quoted string, a two-or-more-element list as a bracketed
comma-separated quoted array preserving input order, and a singleton is
never emitted as a one-element bracketed array; `create_knowledge_base`
sends exactly the statement assembled from these clauses. -/
theorem singleton_column_list_literal_form :
    ∀ (c c1 c2 ep em kb p : String) (rest mcols : List String) (srv : Option String)
      (t : Trace) (cn : ConnOutcome) (df : DF),
      colsOptionClause "content_columns" [c] = ["content_columns = \x27" ++ c ++ "\x27"] ∧
      colsOptionClause "metadata_columns" [c] = ["metadata_columns = \x27" ++ c ++ "\x27"] ∧
      colsOptionClause "content_columns" (c1 :: c2 :: rest)
        = ["content_columns = [" ++ String.intercalate ", "
            ((c1 :: c2 :: rest).map (fun x => "\x27" ++ x ++ "\x27")) ++ "]"] ∧
      colsOptionClause "metadata_columns" (c1 :: c2 :: rest)
        = ["metadata_columns = [" ++ String.intercalate ", "
            ((c1 :: c2 :: rest).map (fun x => "\x27" ++ x ++ "\x27")) ++ "]"] ∧
      colsOptionClause "content_columns" ["col"] ≠ ["content_columns = [\x27col\x27]"] ∧
      kbUsingClauses ep em none none none none none none [c] mcols none
        = ("embedding_model = \x7b " ++ jsonPairsStr [("provider", ep), ("model_name", em)] ++ " \x7d")
          :: ("content_columns = \x27" ++ c ++ "\x27") :: colsOptionClause "metadata_columns" mcols ∧
      (create_knowledge_base ⟨cn, fun _ => ExecResult.ok df⟩ ⟨srv, some p⟩ t kb ep em
          none none none none none none [c] mcols none).2.sqls
        = t.sqls ++ ["CREATE KNOWLEDGE_BASE " ++ kb ++ " USING " ++ String.intercalate ", "
            (kbUsingClauses ep em none none none none none none [c] mcols none) ++ ";"] := by
  intro c c1 c2 ep em kb p rest mcols srv t cn df
  refine ⟨rfl, rfl, rfl, rfl, by decide, ?_, rfl⟩
  simp [kbUsingClauses, modelConfigPairs, colsOptionClause, optTruthy]

/-- C10: a metadata-filter entry whose operator is not among
`$gt`/`$gte`/`$lt`/`$lte` is skipped with a warning — it contributes no
predicate to the generated SQL — and the query is still executed containing
the semantic content predicate and all remaining supported fragments. -/
theorem unsupported_operator_skipped :
    ∀ (col op kb qt p : String) (v lim : Int) (rest : List (String × FVal))
      (df : DF) (cn : ConnOutcome) (srv : Option String) (t : Trace),
      op ≠ "$gt" → op ≠ "$gte" → op ≠ "$lt" → op ≠ "$lte" →
      (filterClauses ((col, FVal.fdict [(op, v)]) :: rest)).1 = (filterClauses rest).1 ∧
      (filterClauses ((col, FVal.fdict [(op, v)]) :: rest)).2
        = ("Warning: Unsupported operator \x27" ++ op ++ "\x27 for column \x27" ++ col ++ "\x27. Skipping.")
            :: (filterClauses rest).2 ∧
      (select_from_knowledge_base ⟨cn, fun _ => ExecResult.ok df⟩ ⟨srv, some p⟩ t kb qt
          ((col, FVal.fdict [(op, v)]) :: rest) lim).2.sqls
        = t.sqls ++ ["SELECT * FROM " ++ kb ++ " WHERE " ++
            String.intercalate " AND "
              (("content = \x27" ++ escSq qt ++ "\x27") :: (filterClauses rest).1)
            ++ (if lim > 0 then " LIMIT " ++ toString lim else "") ++ ";"] := by
  intro col op kb qt p v lim rest df cn srv t h1 h2 h3 h4
  refine ⟨?_, ?_, ?_⟩ <;>
    simp [select_from_knowledge_base, selectKbQuery, execute_sql, execCore, attempt,
      Trace.log, Trace.logMany, filterClauses, opClauses, h1, h2, h3, h4]

theorem unsupported_operator_skipped_witness :
    (filterClauses [("score", FVal.fdict [("$eq", 50)])]).1 = [] ∧
    (filterClauses [("score", FVal.fdict [("$eq", 50)])]).2
      = ["Warning: Unsupported operator \x27$eq\x27 for column \x27score\x27. Skipping."] :=
  have h := unsupported_operator_skipped "score" "$eq" "kb" "q" "p" 50 5 []
    ⟨[], []⟩ (ConnOutcome.fail "x") none t0
    (by decide) (by decide) (by decide) (by decide)
  ⟨h.1, h.2.1⟩

/-- C5: with an established session, a `RuntimeError` whose message contains
"Event loop is closed" causes the query to be re-issued exactly once, the
retry's outcome being final (its result returned, its error propagated); a
`RuntimeError` without that signature and any other exception propagate
without retry, and the statement's text appears in the printed output (for
a non-RuntimeError in the error annotation itself). -/
theorem execute_sql_retry_once :
    ∀ (cn : ConnOutcome) (srv : Option String) (p q m : String) (df : DF)
      (r2 : ExecResult) (ls lg : List String),
      (execute_sql ⟨cn, oracle2 (ExecResult.ok df) r2⟩ ⟨srv, some p⟩ ⟨0, ls, lg⟩ q).1 = Except.ok df ∧
      (execute_sql ⟨cn, oracle2 (ExecResult.ok df) r2⟩ ⟨srv, some p⟩ ⟨0, ls, lg⟩ q).2.2.attempts = 1 ∧
      (execute_sql ⟨cn, oracle2 (ExecResult.ok df) r2⟩ ⟨srv, some p⟩ ⟨0, ls, lg⟩ q).2.2.sqls = ls ++ [q] ∧
      (containsSub "Event loop is closed" m = true →
        (execute_sql ⟨cn, oracle2 (ExecResult.err ⟨true, m⟩) r2⟩ ⟨srv, some p⟩ ⟨0, ls, lg⟩ q).1
          = (match r2 with
             | ExecResult.ok df2 => Except.ok df2
             | ExecResult.err e2 => Except.error e2) ∧
        (execute_sql ⟨cn, oracle2 (ExecResult.err ⟨true, m⟩) r2⟩ ⟨srv, some p⟩ ⟨0, ls, lg⟩ q).2.2.attempts = 2 ∧
        (execute_sql ⟨cn, oracle2 (ExecResult.err ⟨true, m⟩) r2⟩ ⟨srv, some p⟩ ⟨0, ls, lg⟩ q).2.2.sqls = ls ++ [q, q]) ∧
      (containsSub "Event loop is closed" m = false →
        (execute_sql ⟨cn, oracle2 (ExecResult.err ⟨true, m⟩) r2⟩ ⟨srv, some p⟩ ⟨0, ls, lg⟩ q).1
          = Except.error ⟨true, m⟩ ∧
        (execute_sql ⟨cn, oracle2 (ExecResult.err ⟨true, m⟩) r2⟩ ⟨srv, some p⟩ ⟨0, ls, lg⟩ q).2.2.attempts = 1 ∧
        ((execute_sql ⟨cn, oracle2 (ExecResult.err ⟨true, m⟩) r2⟩ ⟨srv, some p⟩ ⟨0, ls, lg⟩ q).2.2.logs).contains
          ("Executing SQL: " ++ q) = true) ∧
      ((execute_sql ⟨cn, oracle2 (ExecResult.err ⟨false, m⟩) r2⟩ ⟨srv, some p⟩ ⟨0, ls, lg⟩ q).1
          = Except.error ⟨false, m⟩ ∧
       (execute_sql ⟨cn, oracle2 (ExecResult.err ⟨false, m⟩) r2⟩ ⟨srv, some p⟩ ⟨0, ls, lg⟩ q).2.2.attempts = 1 ∧
       ((execute_sql ⟨cn, oracle2 (ExecResult.err ⟨false, m⟩) r2⟩ ⟨srv, some p⟩ ⟨0, ls, lg⟩ q).2.2.logs).contains
          ("MindsDB API Error executing query \x27" ++ q ++ "\x27: " ++ m) = true) := by
  intro cn srv p q m df r2 ls lg
  refine ⟨rfl, rfl, rfl, ?_, ?_, ?_, ?_, ?_⟩
  · intro hm
    cases r2 <;>
      simp [execute_sql, execCore, attempt, oracle2, Trace.log, List.append_assoc, hm]
  · intro hm
    simp [execute_sql, execCore, attempt, oracle2, Trace.log, hm]
  · simp [execute_sql, execCore, attempt, oracle2, Trace.log]
  · simp [execute_sql, execCore, attempt, oracle2, Trace.log]
  · simp [execute_sql, execCore, attempt, oracle2, Trace.log]

theorem execute_sql_retry_once_witness :
    (execute_sql ⟨ConnOutcome.fail "x",
        oracle2 (ExecResult.err ⟨true, "RuntimeError: Event loop is closed"⟩)
          (ExecResult.ok ⟨["a"], [["1"]]⟩)⟩
      ⟨none, some "mindsdb"⟩ ⟨0, [], []⟩ "SELECT 1;").1 = Except.ok ⟨["a"], [["1"]]⟩ ∧
    (execute_sql ⟨ConnOutcome.fail "x",
        oracle2 (ExecResult.err ⟨true, "RuntimeError: Event loop is closed"⟩)
          (ExecResult.ok ⟨["a"], [["1"]]⟩)⟩
      ⟨none, some "mindsdb"⟩ ⟨0, [], []⟩ "SELECT 1;").2.2.attempts = 2 :=
  have h := (execute_sql_retry_once (ConnOutcome.fail "x") none "mindsdb" "SELECT 1;"
    "RuntimeError: Event loop is closed" ⟨["a"], [["1"]]⟩
    (ExecResult.ok ⟨["a"], [["1"]]⟩) [] []).2.2.2.1 (by decide)
  ⟨h.1, h.2.1⟩

/-- The trace left by `execute_sql` when every attempt raises `e`. -/
def errTrace (e : PyExc) (t : Trace) (q : String) : Trace :=
  let t1 := t.log ("Executing SQL: " ++ q)
  let t2 : Trace := { t1 with attempts := t1.attempts + 1, sqls := t1.sqls ++ [q] }
  if e.isRuntimeError && containsSub "Event loop is closed" e.msg then
    let t3 := t2.log "Event loop closed, retrying query..."
    let t4 : Trace := { t3 with attempts := t3.attempts + 1, sqls := t3.sqls ++ [q] }
    t4.log ("MindsDB API Error on retry \x27" ++ q ++ "\x27: " ++ e.msg)
  else if e.isRuntimeError then t2
  else t2.log ("MindsDB API Error executing query \x27" ++ q ++ "\x27: " ++ e.msg)

theorem execute_sql_errEnv_eq (e : PyExc) (srv : Option String) (p : String)
    (t : Trace) (q : String) :
    execute_sql (errEnv e) ⟨srv, some p⟩ t q = (Except.error e, ⟨srv, some p⟩, errTrace e t q) := by
  obtain ⟨bre, msg⟩ := e
  cases bre <;> by_cases hc : containsSub "Event loop is closed" msg <;>
    simp [execute_sql, execCore, attempt, errEnv, errTrace, Trace.log, hc]

theorem log_contains_last (t : Trace) (x : String) : ((t.log x).logs).contains x = true := by
  simp [Trace.log]

theorem mem_log_last (t : Trace) (x : String) : x ∈ (t.log x).logs := by
  simp [Trace.log]

theorem fstIfOr (a b : Bool) (t1 t2 : Trace) :
    (if a = true ∨ b = true then ((true : Bool), t1) else ((false : Bool), t2)).1 = (a || b) := by
  cases a <;> cases b <;> simp

/-- C1 counterexample: the claim includes `create_job` among the CREATE-type
operations that treat an "already exists" execution error as success, but
`create_job` (which emits `CREATE JOB IF NOT EXISTS` instead) returns
failure on any execution error — including one whose message contains
"already exists". -/
theorem create_job_already_exists_counterexample :
    containsSub "already exists" (pyLower "Job myjob already exists") = true ∧
    (create_job (errEnv ⟨false, "Job myjob already exists"⟩) ⟨none, some "mindsdb"⟩ t0
      "myjob" ["SELECT 1"] none none none none none).1 = false := by
  decide

/-- C1 amended: `create_knowledge_base` and `create_mindsdb_job` succeed
exactly when the execution error's message contains "already exists";
`create_kb_agent` and `create_model_from_query` additionally accept
"already created"; `drop_model` succeeds exactly when the message contains
"not found" or "doesn't exist"; `create_job` and `drop_job` (whose SQL uses
`IF NOT EXISTS`/`IF EXISTS`) return failure on every execution error; and
unmasked errors are surfaced as failure returns logged with the operation
name and the underlying error text, never re-raised (each operation is a
total function into a return value). -/
theorem idempotency_masking_amended :
    ∀ (e : PyExc) (srv : Option String) (p kb ep em jn dsn tbl si an mn pn sq pc : String)
      (kbs stmts : List String) (ups : List (String × UVal)) (t : Trace),
      p.data.isEmpty = false →
      (create_knowledge_base (errEnv e) ⟨srv, some p⟩ t kb ep em
          none none none none none none [] [] none).1
        = containsSub "already exists" (pyLower e.msg) ∧
      (create_mindsdb_job (errEnv e) ⟨srv, some p⟩ t jn kb dsn tbl si).1
        = containsSub "already exists" (pyLower e.msg) ∧
      (create_kb_agent (errEnv e) ⟨srv, some p⟩ t an mn (kb :: kbs) none [] none []).1
        = (containsSub "already exists" (pyLower e.msg)
            || containsSub "already created" (pyLower e.msg)) ∧
      (create_model_from_query (errEnv e) ⟨srv, some p⟩ t mn pn sq pc ups).1
        = (containsSub "already exists" (pyLower e.msg)
            || containsSub "already created" (pyLower e.msg)) ∧
      (drop_model (errEnv e) ⟨srv, some p⟩ t mn none).1
        = (containsSub "not found" (pyLower e.msg)
            || containsSub "doesn\x27t exist" (pyLower e.msg)) ∧
      (create_job (errEnv e) ⟨srv, some p⟩ t jn stmts none none none none none).1 = false ∧
      (drop_job (errEnv e) ⟨srv, some p⟩ t jn none).1 = false ∧
      (containsSub "already exists" (pyLower e.msg) = false →
        ((create_knowledge_base (errEnv e) ⟨srv, some p⟩ t kb ep em
            none none none none none none [] [] none).2.logs).contains
          ("Error creating Knowledge Base \x27" ++ kb ++ "\x27: " ++ e.msg) = true) ∧
      (containsSub "not found" (pyLower e.msg) = false →
        containsSub "doesn\x27t exist" (pyLower e.msg) = false →
        ((drop_model (errEnv e) ⟨srv, some p⟩ t mn none).2.logs).contains
          ("Error dropping model \x27" ++ (p ++ "." ++ mn) ++ "\x27: " ++ e.msg) = true) ∧
      ((create_job (errEnv e) ⟨srv, some p⟩ t jn stmts none none none none none).2.logs).contains
        ("Error creating job \x27" ++ jn ++ "\x27: " ++ e.msg) = true ∧
      ((drop_job (errEnv e) ⟨srv, some p⟩ t jn none).2.logs).contains
        ("Error deleting job \x27" ++ jn ++ "\x27: " ++ e.msg) = true := by
  intro e srv p kb ep em jn dsn tbl si an mn pn sq pc kbs stmts ups t hp
  refine ⟨?_, ?_, ?_, ?_, ?_, ?_, ?_, ?_, ?_, ?_, ?_⟩
  · simp [create_knowledge_base, execute_sql_errEnv_eq, fstIfBool]
  · by_cases h5 : tbl = "stories" <;> by_cases h6 : tbl = "comments" <;>
      simp [create_mindsdb_job, execute_sql_errEnv_eq, fstIfBool, h5, h6]
  · by_cases hg : containsSub "google" (pyLower mn) <;>
      simp [create_kb_agent, execute_sql_errEnv_eq, fstIfBool, fstIfOr, hg,
        GOOGLE_GEMINI_API_KEY, agentParamClauses, Trace.logMany]
  · simp [create_model_from_query, execute_sql_errEnv_eq, fstIfBool, fstIfOr]
  · simp [drop_model, execute_sql_errEnv_eq, fstIfBool, fstIfOr, optTruthy, hp]
  · simp [create_job, execute_sql_errEnv_eq]
  · simp [drop_job, execute_sql_errEnv_eq]
  · intro hae
    simp [create_knowledge_base, execute_sql_errEnv_eq, hae, mem_log_last]
  · intro hnf hde
    simp [drop_model, execute_sql_errEnv_eq, optTruthy, hp, hnf, hde, mem_log_last]
  · simp [create_job, execute_sql_errEnv_eq, mem_log_last]
  · simp [drop_job, execute_sql_errEnv_eq, mem_log_last]

theorem idempotency_masking_amended_witness :
    (create_knowledge_base (errEnv ⟨false, "boom"⟩) ⟨none, some "mindsdb"⟩ t0 "kb1" "openai" "m"
        none none none none none none [] [] none).1 = false ∧
    ((create_knowledge_base (errEnv ⟨false, "boom"⟩) ⟨none, some "mindsdb"⟩ t0 "kb1" "openai" "m"
        none none none none none none [] [] none).2.logs).contains
      ("Error creating Knowledge Base \x27kb1\x27: boom") = true ∧
    (drop_model (errEnv ⟨false, "model m1 not found"⟩) ⟨none, some "mindsdb"⟩ t0 "m1" none).1 = true :=
  have h1 := idempotency_masking_amended ⟨false, "boom"⟩ none "mindsdb" "kb1" "openai" "m"
    "j" "d" "tbl" "si" "a" "mo" "pr" "sq" "pc" [] [] [] t0 (by decide)
  have h2 := idempotency_masking_amended ⟨false, "model m1 not found"⟩ none "mindsdb" "kb1"
    "openai" "m" "j" "d" "tbl" "si" "a" "m1" "pr" "sq" "pc" [] [] [] t0 (by decide)
  ⟨by rw [h1.1]; decide,
   h1.2.2.2.2.2.2.2.1 (by decide),
   by rw [h2.2.2.2.2.1]; decide⟩

theorem escDq_no_dq (l : List Char)
    (h : l.contains (Char.ofNat 34) = false) :
    (l.foldr (fun c acc =>
      if c = Char.ofNat 34 then Char.ofNat 92 :: Char.ofNat 34 :: acc else c :: acc) []) = l := by
  induction l with
  | nil => rfl
  | cons c cs ih =>
    simp only [List.contains_cons, Bool.or_eq_false_iff, beq_eq_false_iff_ne, ne_eq] at h
    have hc : ¬(c = Char.ofNat 34) := fun hh => h.1 hh.symm
    simp only [List.foldr_cons, ih h.2, if_neg hc]

/-- C2 counterexample: `create_knowledge_base` does not double embedded
single quotes in the embedding-model value (it only backslash-escapes double
quotes) nor in content column names — the generated SQL carries the raw
quote, contradicting the claim for those interpolation sites. -/
theorem quote_escaping_counterexample :
    containsSub "o\x27mini"
      ((create_knowledge_base (okEnv ⟨[], []⟩) ⟨none, some "mindsdb"⟩ t0 "kb1" "openai"
          "o\x27mini" none none none none none none ["a\x27b"] [] none).2.sqls.getD 0 "")
      = true ∧
    containsSub "o\x27\x27mini"
      ((create_knowledge_base (okEnv ⟨[], []⟩) ⟨none, some "mindsdb"⟩ t0 "kb1" "openai"
          "o\x27mini" none none none none none none ["a\x27b"] [] none).2.sqls.getD 0 "")
      = false ∧
    containsSub "content_columns = \x27a\x27b\x27"
      ((create_knowledge_base (okEnv ⟨[], []⟩) ⟨none, some "mindsdb"⟩ t0 "kb1" "openai"
          "o\x27mini" none none none none none none ["a\x27b"] [] none).2.sqls.getD 0 "")
      = true ∧
    containsSub "a\x27\x27b"
      ((create_knowledge_base (okEnv ⟨[], []⟩) ⟨none, some "mindsdb"⟩ t0 "kb1" "openai"
          "o\x27mini" none none none none none none ["a\x27b"] [] none).2.sqls.getD 0 "")
      = false := by
  decide

/-- C2 amended: the builders escape inconsistently rather than uniformly
doubling single quotes.  Doubling (`escSq`) is applied to the semantic query
text, the agent question, the prompt template, `include_knowledge_bases`
entries, string-valued USING parameters of `create_model_from_query`, and
string-valued evaluation LLM parameters; embedding/reranking model
configuration values instead only backslash-escape embedded double quotes
(`escDq`), leaving single quotes intact; and content/metadata column names
and the agent model name are interpolated verbatim, unescaped. -/
theorem quote_escaping_amended :
    ∀ (cn : ConnOutcome) (srv : Option String) (p an q kb qt k v c mn pt s : String)
      (lim : Int) (t : Trace),
      pt.data.isEmpty = false →
      containsSub "google" (pyLower mn) = false →
      (query_kb_agent ⟨cn, fun _ => ExecResult.ok ⟨[], []⟩⟩ ⟨srv, some p⟩ t an q).2.sqls
        = t.sqls ++ ["SELECT answer FROM " ++ an ++ " WHERE question = \x27" ++ escSq q ++ "\x27;"] ∧
      (select_from_knowledge_base ⟨cn, fun _ => ExecResult.ok ⟨[], []⟩⟩ ⟨srv, some p⟩ t kb qt [] lim).2.sqls
        = t.sqls ++ ["SELECT * FROM " ++ kb ++ " WHERE " ++
            String.intercalate " AND " ["content = \x27" ++ escSq qt ++ "\x27"] ++
            (if lim > 0 then " LIMIT " ++ toString lim else "") ++ ";"] ∧
      jsonPairsStr [(k, v)] = "\x22" ++ k ++ "\x22: \x22" ++ escDq v ++ "\x22" ∧
      (v.data.contains (Char.ofNat 34) = false → escDq v = v) ∧
      colsOptionClause "content_columns" [c] = ["content_columns = \x27" ++ c ++ "\x27"] ∧
      uvalClause k (UVal.ustr s) = k ++ " = \x27" ++ escSq s ++ "\x27" ∧
      llmParamClauses [(k, UVal.ustr s)]
        = (["\x27" ++ k ++ "\x27: \x27" ++ escSq s ++ "\x27"], []) ∧
      (create_kb_agent ⟨cn, fun _ => ExecResult.ok ⟨[], []⟩⟩ ⟨srv, some p⟩ t an mn [kb]
          none [] (some pt) []).2.sqls
        = t.sqls ++ ["CREATE AGENT " ++ an ++ " USING " ++
            String.intercalate ", "
              ["model = \x27" ++ mn ++ "\x27",
               "include_knowledge_bases = " ++
                 ("[" ++ String.intercalate ", " ["\x27" ++ escSq kb ++ "\x27"] ++ "]"),
               "prompt_template = \x27\x27\x27" ++ escSq pt ++ "\x27\x27\x27"] ++ ";"] := by
  intro cn srv p an q kb qt k v c mn pt s lim t hpt hg
  refine ⟨rfl, rfl, rfl, ?_, rfl, rfl, rfl, ?_⟩
  · intro h
    unfold escDq
    rw [escDq_no_dq _ h]
  · simp [create_kb_agent, execute_sql, execCore, attempt, Trace.log, Trace.logMany,
      agentParamClauses, optTruthy, hpt, hg]

theorem quote_escaping_amended_witness :
    (query_kb_agent ⟨ConnOutcome.fail "x", fun _ => ExecResult.ok ⟨[], []⟩⟩
        ⟨none, some "mindsdb"⟩ t0 "ag" "it\x27s").2.sqls
      = ["SELECT answer FROM ag WHERE question = \x27it\x27\x27s\x27;"] :=
  have h := quote_escaping_amended (ConnOutcome.fail "x") none "mindsdb" "ag" "it\x27s"
    "kb" "qt" "k" "v" "c" "mo" "pt" "s" 5 t0 (by decide) (by decide)
  h.1
